import Mathlib

/-!
Verification of the rollup/aggregation engine of `src/services/rollup_service.py`
(`WeatherRollupService`).

Shallow embedding conventions:
* Python floats are modelled as rationals `ℚ` (the float values flowing through the
  service are parsed decimal readings and exact results of `min`/`max`/comparison;
  trigonometric parts are modelled separately over `ℝ`).
* Timestamps are modelled as rationals; `timestamp.isoformat()` strings are identified
  with the timestamp itself (the conversion is injective on the timestamps of a window).
* A pandas `DataFrame` indexed by time becomes `DataFrame` below: a time index plus a
  list of named columns, each a list of optional values (`none` models a missing /
  NaN cell; `Series.dropna` is `DataFrame.series`, which pairs each surviving value
  with its timestamp).
* The metrics dictionary becomes an association list in insertion order; Python dict
  key presence corresponds to `List.lookup` returning `some`.
-/

/-- A value stored in the metrics dictionary: a float, a timestamp
(`isoformat` string), a plain string, or Python `None` (which the unpacking
assignments in `_compute_rollup_metrics` can store). -/
inductive MetricValue where
  | num (q : ℚ)
  | time (t : ℚ)
  | str (s : String)
  | vnone
  deriving DecidableEq, Repr

/-- The metrics dictionary built by `_compute_rollup_metrics`, in insertion order. -/
abbrev Metrics := List (String × MetricValue)

/-- A time-indexed pandas DataFrame: the `time` index plus named columns.
A `none` entry models a missing (NaN) cell. -/
structure DataFrame where
  times : List ℚ
  cols : List (String × List (Option ℚ))
  deriving DecidableEq, Repr

/-- Membership test `name in df.columns`. -/
def DataFrame.hasCol (df : DataFrame) (name : String) : Bool :=
  df.cols.any (fun c => c.1 == name)

/-- The raw column of optional cells for `df[name]` (first column with that name). -/
def DataFrame.getCol (df : DataFrame) (name : String) : List (Option ℚ) :=
  match df.cols.find? (fun c => c.1 == name) with
  | some c => c.2
  | none => []

/-- `df[name].dropna()` keeping the time index: the (timestamp, value) pairs of the
non-missing cells of the column, in index order. -/
def DataFrame.series (df : DataFrame) (name : String) : List (ℚ × ℚ) :=
  (df.times.zip (df.getCol name)).filterMap (fun p => p.2.map (fun v => (p.1, v)))

/-- `df.loc[t, name]`: the cell of column `name` at index entry `t`
(first matching index entry), `none` when the cell is missing. -/
def DataFrame.atTime (df : DataFrame) (t : ℚ) (name : String) : Option ℚ :=
  match (df.times.zip (df.getCol name)).find? (fun p => decide (p.1 = t)) with
  | some p => p.2
  | none => none

/-- The aggregation argument of `_find_value_with_time`: the code is only ever
called with `np.min` or `np.max`. -/
inductive AggMode where
  | amin
  | amax
  deriving DecidableEq, Repr

/-- `np.min` / `np.max` of a (non-empty) list of values; the `[]` case is never
reached behind the emptiness guard of `_find_value_with_time`. -/
def aggValue : AggMode → List ℚ → ℚ
  | _, [] => 0
  | .amin, x :: xs => xs.foldl min x
  | .amax, x :: xs => xs.foldl max x

/-- `WeatherRollupService._find_value_with_time` (rollup_service.py lines 53-68).
The input series is already NaN-free (every caller passes a `dropna()` result, so
`series.isna().all()` can only hold when the series is empty).  Mirrors the code:
compute the aggregate, filter the series for cells equal to it, return the first
filtered timestamp, or `(value, None)` if the filter comes back empty. -/
def findValueWithTime (series : List (ℚ × ℚ)) (agg : AggMode) : Option ℚ × Option ℚ :=
  if series = [] then (none, none)
  else
    let value := aggValue agg (series.map Prod.snd)
    match series.filter (fun p => decide (p.2 = value)) with
    | [] => (some value, none)
    | p :: _ => (some value, some p.1)

/-- The 16-entry compass label table of `_get_cardinal_direction`. -/
def directions : List String :=
  ["N", "NNE", "NE", "ENE", "E", "ESE", "SE", "SSE",
   "S", "SSW", "SW", "WSW", "W", "WNW", "NW", "NNW"]

/-- Python's builtin `round` to an integer: round half to even. -/
def roundHalfEven (q : ℚ) : ℤ :=
  if q - ⌊q⌋ < 1 / 2 then ⌊q⌋
  else if 1 / 2 < q - ⌊q⌋ then ⌊q⌋ + 1
  else if ⌊q⌋ % 2 = 0 then ⌊q⌋ else ⌊q⌋ + 1

/-- `WeatherRollupService._get_cardinal_direction` (rollup_service.py lines 36-42):
`index = round(degrees / 22.5) % 16` followed by indexing the label table.
Python `%` on a positive modulus agrees with `Int.emod`; the index is always in
range, so the `getD` default is never used. -/
def getCardinalDirection (degrees : ℚ) : String :=
  directions.getD (roundHalfEven (degrees / 22.5) % 16).toNat "N"

/-- Mean of a pandas Series, `Series.mean()` (division by zero only behind
non-emptiness guards). -/
def listMean (l : List ℚ) : ℚ := l.sum / l.length

/-- `WeatherRollupService._calculate_wind_run` (rollup_service.py lines 44-51):
`mean * (interval_minutes / 60) * len`.  The function receives no timestamps at
all, so actual gaps in the sampling cannot influence the result. -/
def calculateWindRun (windSpeeds : List ℚ) (intervalMinutes : ℚ) : ℚ :=
  listMean windSpeeds * (intervalMinutes / 60) * windSpeeds.length

/-- The distinct values of a series, in ascending order; pandas `Series.mode`
returns its result ordered this way. -/
def sortedValues (l : List ℚ) : List ℚ := (l.dedup).insertionSort (· ≤ ·)

/-- The number of occurrences of the most frequent value of the series. -/
def maxCountOf (l : List ℚ) : ℕ :=
  ((sortedValues l).map (fun v => l.count v)).foldr max 0

/-- `Series.mode()`: all values attaining the maximal occurrence count, in
ascending order. -/
def modeList (l : List ℚ) : List ℚ :=
  (sortedValues l).filter (fun v => decide (l.count v = maxCountOf l))

/-- The sector bucketing of the dominant-direction computation
(rollup_service.py line 154): `(wind_dir / 22.5).round() * 22.5`, with pandas
`Series.round` rounding half to even like Python `round`. -/
def dominantSector (windDir : List ℚ) : List ℚ :=
  windDir.map (fun d => (roundHalfEven (d / 22.5) : ℚ) * 22.5)

/-- Lines 154-158 of rollup_service.py: bucket the samples, take the mode, and
map the first mode entry through `_get_cardinal_direction`; no key is emitted
when the mode is empty. -/
def dominantWindDirection (windDir : List ℚ) : Option String :=
  match modeList (dominantSector windDir) with
  | [] => none
  | m :: _ => some (getCardinalDirection m)

-- ---------------------------------------------------------------------------
-- Circular mean (rollup_service.py lines 144-151), modelled over the reals
-- ---------------------------------------------------------------------------

/-- `np.arctan2 y x`: the angle of the point `(x, y)`, in `(-pi, pi]`
(`numpy` only differs at the unreachable signed-zero inputs). -/
noncomputable def arctan2 (y x : ℝ) : ℝ := Complex.arg ⟨x, y⟩

/-- Mean of the sines of the angles after `np.radians` conversion
(line 145-146 of rollup_service.py). -/
noncomputable def meanSin (angles : List ℝ) : ℝ :=
  ((angles.map (fun d => Real.sin (d * Real.pi / 180))).sum) / angles.length

/-- Mean of the cosines of the angles after `np.radians` conversion
(line 147 of rollup_service.py). -/
noncomputable def meanCos (angles : List ℝ) : ℝ :=
  ((angles.map (fun d => Real.cos (d * Real.pi / 180))).sum) / angles.length

/-- `np.degrees(np.arctan2(sin_avg, cos_avg))` (line 148). -/
noncomputable def avgAngleDeg (angles : List ℝ) : ℝ :=
  arctan2 (meanSin angles) (meanCos angles) * 180 / Real.pi

open scoped Classical in

/-- The circular mean of the wind-direction branch (lines 144-151): reconstruct
the angle from the averaged sine and cosine components, convert to degrees, and
add 360 when negative. -/
noncomputable def circularMean (angles : List ℝ) : ℝ :=
  if avgAngleDeg angles < 0 then avgAngleDeg angles + 360 else avgAngleDeg angles

-- ---------------------------------------------------------------------------
-- The metric aggregator `_compute_rollup_metrics` (rollup_service.py 74-183)
-- ---------------------------------------------------------------------------

/-- A dictionary assignment receiving the value slot of `_find_value_with_time`:
the key is always created; a `None` value is stored as `vnone`. -/
def entryNum (k : String) (v : Option ℚ) : String × MetricValue :=
  (k, match v with | some q => MetricValue.num q | none => MetricValue.vnone)

/-- A dictionary assignment receiving the timestamp slot of
`_find_value_with_time`. -/
def entryTime (k : String) (v : Option ℚ) : String × MetricValue :=
  (k, match v with | some t => MetricValue.time t | none => MetricValue.vnone)

/-- The low/high-with-time/average pattern repeated for temperature, dew point,
humidity and pressure in `_compute_rollup_metrics`: guard on column presence
and a non-empty `dropna()`, then emit the five keys. -/
def statBlock (df : DataFrame) (col lowK lowTK highK highTK avgK : String) :
    Metrics :=
  if df.hasCol col = true ∧ df.series col ≠ [] then
    [entryNum lowK (findValueWithTime (df.series col) .amin).1,
     entryTime lowTK (findValueWithTime (df.series col) .amin).2,
     entryNum highK (findValueWithTime (df.series col) .amax).1,
     entryTime highTK (findValueWithTime (df.series col) .amax).2,
     (avgK, MetricValue.num (listMean ((df.series col).map Prod.snd)))]
  else []

/-- The wind-speed branch (lines 113-124).  `stdevFn` abstracts pandas
`Series.std()` (sample standard deviation, an irrational-valued operation whose
numeric value no claim depends on); the wind-run call passes
`settings.WIND_INTERVAL / 60` exactly as line 124 does. -/
def windBlock (stdevFn : List ℚ → ℚ) (windInterval : ℚ) (df : DataFrame) :
    Metrics :=
  if df.hasCol "current_wind_speed" = true ∧ df.series "current_wind_speed" ≠ [] then
    [entryNum "low_wind_speed"
        (findValueWithTime (df.series "current_wind_speed") .amin).1,
     entryTime "time_of_low_wind_speed"
        (findValueWithTime (df.series "current_wind_speed") .amin).2,
     entryNum "high_avg_wind_speed"
        (findValueWithTime (df.series "current_wind_speed") .amax).1,
     entryTime "time_of_high_avg_wind_speed"
        (findValueWithTime (df.series "current_wind_speed") .amax).2,
     ("average_wind_speed",
        MetricValue.num (listMean ((df.series "current_wind_speed").map Prod.snd))),
     ("wind_speed_stdev",
        MetricValue.num (stdevFn ((df.series "current_wind_speed").map Prod.snd))),
     ("wind_run_total",
        MetricValue.num (calculateWindRun
          ((df.series "current_wind_speed").map Prod.snd) (windInterval / 60)))]
  else []

/-- The gust-direction lookup of lines 134-138: only when the max-gust
timestamp exists, the `max_wind_direction` column is present, and the cell at
that timestamp is non-missing is the key emitted. -/
def gustDirEntry (df : DataFrame) (gt? : Option ℚ) : Metrics :=
  match gt? with
  | some gt =>
    if df.hasCol "max_wind_direction" = true then
      match df.atTime gt "max_wind_direction" with
      | some d => [("max_gust_direction", MetricValue.num d)]
      | none => []
    else []
  | none => []

/-- The gust branch (lines 127-138). -/
def gustBlock (df : DataFrame) : Metrics :=
  if df.hasCol "gust_speed" = true ∧ df.series "gust_speed" ≠ [] then
    [entryNum "max_gust_speed" (findValueWithTime (df.series "gust_speed") .amax).1,
     entryTime "time_of_max_gust" (findValueWithTime (df.series "gust_speed") .amax).2]
    ++ gustDirEntry df (findValueWithTime (df.series "gust_speed") .amax).2
  else []

/-- The wind-direction branch (lines 141-158).  `circMeanFn` abstracts the
trigonometric circular-mean pipeline (modelled exactly, over the reals, by
`circularMean`); the dominant-sector part is `dominantWindDirection`. -/
def windDirBlock (circMeanFn : List ℚ → ℚ) (df : DataFrame) : Metrics :=
  if df.hasCol "current_wind_direction" = true ∧
      df.series "current_wind_direction" ≠ [] then
    ("average_wind_direction",
        MetricValue.num (circMeanFn ((df.series "current_wind_direction").map Prod.snd)))
    :: (match dominantWindDirection
          ((df.series "current_wind_direction").map Prod.snd) with
        | some lbl => [("dominant_wind_direction", MetricValue.str lbl)]
        | none => [])
  else []

/-- The rain-rate branch (lines 171-175). -/
def rainRateBlock (df : DataFrame) : Metrics :=
  if df.hasCol "current_rain_rate" = true ∧ df.series "current_rain_rate" ≠ [] then
    [entryNum "max_rain_rate"
        (findValueWithTime (df.series "current_rain_rate") .amax).1,
     entryTime "time_of_max_rain_rate"
        (findValueWithTime (df.series "current_rain_rate") .amax).2]
  else []

/-- The cumulative-rain branch (lines 177-181):
`total_rainfall = rain.iloc[-1] - rain.iloc[0]` on the `dropna()` result. -/
def totalRainBlock (df : DataFrame) : Metrics :=
  if df.hasCol "total_rain" = true then
    match df.series "total_rain" with
    | [] => []
    | p :: rest =>
      [("total_rainfall",
        MetricValue.num (((p :: rest).map Prod.snd).getLastD 0 - p.2))]
  else []

/-- `WeatherRollupService._compute_rollup_metrics` (lines 74-183): start from
the station tag and append every branch in source order.  The two abstracted
numeric helpers (`stdevFn` for `Series.std`, `circMeanFn` for the circular
mean) and the configured `WIND_INTERVAL` seconds value are parameters; all
results below hold for every choice of them. -/
def computeRollupMetrics (stdevFn circMeanFn : List ℚ → ℚ) (windInterval : ℚ)
    (df : DataFrame) (station : String) : Metrics :=
  [("station", MetricValue.str station)]
  ++ statBlock df "current_outside_temp" "low_temperature" "time_of_low_temperature"
       "high_temperature" "time_of_high_temperature" "average_temperature"
  ++ statBlock df "current_dew_point" "low_dew_point" "time_of_low_dew_point"
       "high_dew_point" "time_of_high_dew_point" "average_dew_point"
  ++ statBlock df "current_outside_humidity" "low_humidity" "time_of_low_humidity"
       "high_humidity" "time_of_high_humidity" "average_humidity"
  ++ windBlock stdevFn windInterval df
  ++ gustBlock df
  ++ windDirBlock circMeanFn df
  ++ statBlock df "current_sea_level_pressure" "low_pressure" "time_of_low_pressure"
       "high_pressure" "time_of_high_pressure" "average_pressure"
  ++ rainRateBlock df
  ++ totalRainBlock df

/-- The fixed source-column-to-metric-key table of `_compute_rollup_metrics`,
excluding the station tag and `max_gust_direction` (whose emission needs more
than its source columns being present, see `lookup_maxGustDirection_isSome`). -/
def metricTable : List (String × String) :=
  [("low_temperature", "current_outside_temp"),
   ("time_of_low_temperature", "current_outside_temp"),
   ("high_temperature", "current_outside_temp"),
   ("time_of_high_temperature", "current_outside_temp"),
   ("average_temperature", "current_outside_temp"),
   ("low_dew_point", "current_dew_point"),
   ("time_of_low_dew_point", "current_dew_point"),
   ("high_dew_point", "current_dew_point"),
   ("time_of_high_dew_point", "current_dew_point"),
   ("average_dew_point", "current_dew_point"),
   ("low_humidity", "current_outside_humidity"),
   ("time_of_low_humidity", "current_outside_humidity"),
   ("high_humidity", "current_outside_humidity"),
   ("time_of_high_humidity", "current_outside_humidity"),
   ("average_humidity", "current_outside_humidity"),
   ("low_wind_speed", "current_wind_speed"),
   ("time_of_low_wind_speed", "current_wind_speed"),
   ("high_avg_wind_speed", "current_wind_speed"),
   ("time_of_high_avg_wind_speed", "current_wind_speed"),
   ("average_wind_speed", "current_wind_speed"),
   ("wind_speed_stdev", "current_wind_speed"),
   ("wind_run_total", "current_wind_speed"),
   ("max_gust_speed", "gust_speed"),
   ("time_of_max_gust", "gust_speed"),
   ("average_wind_direction", "current_wind_direction"),
   ("dominant_wind_direction", "current_wind_direction"),
   ("low_pressure", "current_sea_level_pressure"),
   ("time_of_low_pressure", "current_sea_level_pressure"),
   ("high_pressure", "current_sea_level_pressure"),
   ("time_of_high_pressure", "current_sea_level_pressure"),
   ("average_pressure", "current_sea_level_pressure"),
   ("max_rain_rate", "current_rain_rate"),
   ("time_of_max_rain_rate", "current_rain_rate"),
   ("total_rainfall", "total_rain")]

/-- A two-row window with a gust column and a direction column whose cell at
the max-gust timestamp is missing: the direction column exists and has a
non-missing sample, yet `max_gust_direction` is not emitted. -/
def dfC1 : DataFrame :=
  ⟨[0, 1], [("gust_speed", [some 5, some 3]),
            ("max_wind_direction", [none, some 270])]⟩

/-- A four-row window carrying only a cumulative rain column (the spec's
example values). -/
def dfRain : DataFrame :=
  ⟨[0, 1, 2, 3], [("total_rain", [some 0, some 1.2, some 1.2, some 3.5])]⟩

-- ---------------------------------------------------------------------------
-- Raw Data Reader (lines 189-228) and Rollup Orchestrator (lines 257-302)
-- ---------------------------------------------------------------------------

/-- One run of `_query_raw_data` as observed at its boundary: the query raised
(connectivity failure / rejected query), the client returned no result object,
or it returned a table of rows (possibly zero rows). -/
inductive QueryOutcome where
  | failure
  | noResult
  | success (df : DataFrame)

/-- `WeatherRollupService._query_raw_data` (lines 189-228): the value returned
to the caller together with the diagnostic log line emitted.  An exception
logs at error level and returns `None` (lines 226-228); a missing result
object or an empty frame logs the no-data warning and returns `None`
(lines 209-211 and 219-221); otherwise the time-indexed frame is returned. -/
def queryRawData : QueryOutcome → Option DataFrame × String
  | .failure => (none, "error: Failed to query raw data")
  | .noResult => (none, "warning: No data found")
  | .success df =>
    if df.times.isEmpty then (none, "warning: No data found")
    else (some df, "info: Retrieved raw records")

/-- The observable outcome of one orchestrator invocation: either it aborted
before reaching the Rollup Writer, or it invoked the Writer on a metrics
record and reported the Writer's boolean result. -/
inductive RollupOutcome where
  | aborted
  | wrote (metrics : Metrics) (ok : Bool)
  deriving Repr

/-- The boolean the orchestrator entry point returns. -/
def rollupSuccess : RollupOutcome → Bool
  | .aborted => false
  | .wrote _ ok => ok

/-- `WeatherRollupService.compute_hourly_rollup`, lines 273-278: fetch the raw
window, return `False` when the Reader signalled `None`, otherwise aggregate
and hand the record to the Writer (whose success becomes the result).
`queryResult` is the Reader's returned value and `writeOk` the Writer's
success function. -/
def computeHourlyRollup (queryResult : Option DataFrame) (f g : List ℚ → ℚ)
    (w : ℚ) (station : String) (writeOk : Metrics → Bool) : RollupOutcome :=
  match queryResult with
  | none => .aborted
  | some df =>
    .wrote (computeRollupMetrics f g w df station)
      (writeOk (computeRollupMetrics f g w df station))

/-- `WeatherRollupService.compute_daily_rollup`, lines 297-302: the same
Reader-Aggregator-Writer sequence against the daily table. -/
def computeDailyRollup (queryResult : Option DataFrame) (f g : List ℚ → ℚ)
    (w : ℚ) (station : String) (writeOk : Metrics → Bool) : RollupOutcome :=
  match queryResult with
  | none => .aborted
  | some df =>
    .wrote (computeRollupMetrics f g w df station)
      (writeOk (computeRollupMetrics f g w df station))

-- ---------------------------------------------------------------------------
-- Helper lemmas about folds of `min` / `max`
-- ---------------------------------------------------------------------------

theorem foldl_min_mem (x : ℚ) (xs : List ℚ) : xs.foldl min x ∈ x :: xs := by
  induction xs generalizing x with
  | nil => simp
  | cons y ys ih =>
    rw [List.foldl_cons]
    have h := ih (min x y)
    rcases List.mem_cons.mp h with h1 | h1
    · rw [h1]
      rcases min_choice x y with hc | hc
      · rw [hc]; exact List.mem_cons_self _ _
      · rw [hc]; exact List.mem_cons.mpr (Or.inr (List.mem_cons_self _ _))
    · exact List.mem_cons.mpr (Or.inr (List.mem_cons.mpr (Or.inr h1)))

theorem foldl_max_mem (x : ℚ) (xs : List ℚ) : xs.foldl max x ∈ x :: xs := by
  induction xs generalizing x with
  | nil => simp
  | cons y ys ih =>
    rw [List.foldl_cons]
    have h := ih (max x y)
    rcases List.mem_cons.mp h with h1 | h1
    · rw [h1]
      rcases max_choice x y with hc | hc
      · rw [hc]; exact List.mem_cons_self _ _
      · rw [hc]; exact List.mem_cons.mpr (Or.inr (List.mem_cons_self _ _))
    · exact List.mem_cons.mpr (Or.inr (List.mem_cons.mpr (Or.inr h1)))

theorem foldl_min_le (x : ℚ) (xs : List ℚ) : ∀ y ∈ x :: xs, xs.foldl min x ≤ y := by
  induction xs generalizing x with
  | nil => intro y hy; simp at hy; simp [hy]
  | cons z zs ih =>
    intro y hy
    have ihz := ih (min x z)
    rcases List.mem_cons.mp hy with h1 | h1
    · calc List.foldl min (min x z) zs ≤ min x z := ihz _ (List.mem_cons_self _ _)
        _ ≤ y := by rw [h1]; exact min_le_left _ _
    · rcases List.mem_cons.mp h1 with h2 | h2
      · calc List.foldl min (min x z) zs ≤ min x z := ihz _ (List.mem_cons_self _ _)
          _ ≤ y := by rw [h2]; exact min_le_right _ _
      · exact ihz _ (List.mem_cons.mpr (Or.inr h2))

theorem le_foldl_max (x : ℚ) (xs : List ℚ) : ∀ y ∈ x :: xs, y ≤ xs.foldl max x := by
  induction xs generalizing x with
  | nil => intro y hy; simp at hy; simp [hy]
  | cons z zs ih =>
    intro y hy
    have ihz := ih (max x z)
    rcases List.mem_cons.mp hy with h1 | h1
    · calc y ≤ max x z := by rw [h1]; exact le_max_left _ _
        _ ≤ List.foldl max (max x z) zs := ihz _ (List.mem_cons_self _ _)
    · rcases List.mem_cons.mp h1 with h2 | h2
      · calc y ≤ max x z := by rw [h2]; exact le_max_right _ _
          _ ≤ List.foldl max (max x z) zs := ihz _ (List.mem_cons_self _ _)
      · exact ihz _ (List.mem_cons.mpr (Or.inr h2))

theorem aggValue_mem (agg : AggMode) (l : List ℚ) (h : l ≠ []) : aggValue agg l ∈ l := by
  match l with
  | [] => exact absurd rfl h
  | x :: xs =>
    cases agg with
    | amin => exact foldl_min_mem x xs
    | amax => exact foldl_max_mem x xs

theorem aggValue_min_le (l : List ℚ) (y : ℚ) (hy : y ∈ l) : aggValue .amin l ≤ y := by
  match l with
  | [] => simp at hy
  | x :: xs => exact foldl_min_le x xs y hy

theorem le_aggValue_max (l : List ℚ) (y : ℚ) (hy : y ∈ l) : y ≤ aggValue .amax l := by
  match l with
  | [] => simp at hy
  | x :: xs => exact le_foldl_max x xs y hy

-- ---------------------------------------------------------------------------
-- C10: the `(value, None)` branch of `_find_value_with_time` is unreachable
-- ---------------------------------------------------------------------------

/-- Claim C10: for every non-empty series with no missing values, the branch of
`_find_value_with_time` that returns `(value, None)` is unreachable: the
aggregate is always attained by some element, so the returned timestamp is
always non-`None`. -/
theorem findValueWithTime_timestamp_isSome (series : List (ℚ × ℚ)) (agg : AggMode)
    (h : series ≠ []) : ∃ v t, findValueWithTime series agg = (some v, some t) := by
  have hv : aggValue agg (series.map Prod.snd) ∈ series.map Prod.snd :=
    aggValue_mem _ _ (by simpa using h)
  obtain ⟨p, hp, hpv⟩ := List.mem_map.mp hv
  have hpf : p ∈ series.filter
      (fun q => decide (q.2 = aggValue agg (series.map Prod.snd))) :=
    List.mem_filter.mpr ⟨hp, by simp [hpv]⟩
  cases hfil : series.filter
      (fun q => decide (q.2 = aggValue agg (series.map Prod.snd))) with
  | nil => rw [hfil] at hpf; simp at hpf
  | cons q qs =>
    refine ⟨aggValue agg (series.map Prod.snd), q.1, ?_⟩
    simp only [findValueWithTime, if_neg h]
    rw [hfil]

/-- Concrete instance of C10: on `[(1, 5), (2, 3)]`, MIN returns an attained
value with its timestamp. -/
theorem findValueWithTime_timestamp_isSome_witness :
    ∃ v t, findValueWithTime [((1 : ℚ), (5 : ℚ)), (2, 3)] .amin = (some v, some t) :=
  findValueWithTime_timestamp_isSome [((1 : ℚ), (5 : ℚ)), (2, 3)] .amin (by simp)

-- ---------------------------------------------------------------------------
-- C2: extremum locator returns the earliest occurrence
-- ---------------------------------------------------------------------------

/-- Claim C2: on a non-empty ascending-time series without missing values,
`_find_value_with_time` returns the min (resp. max) of the values together with
the timestamp of its earliest occurrence: the returned pair is attained in the
series, the value bounds every sample (from below for MIN, from above for MAX),
and every occurrence of the value has a timestamp `≥` the returned one. -/
theorem findValueWithTime_first_occurrence (series : List (ℚ × ℚ)) (agg : AggMode)
    (hne : series ≠ []) (hsorted : series.Pairwise (fun p q => p.1 < q.1)) :
    ∃ t, findValueWithTime series agg
        = (some (aggValue agg (series.map Prod.snd)), some t) ∧
      (t, aggValue agg (series.map Prod.snd)) ∈ series ∧
      (∀ p ∈ series,
        (agg = .amin → aggValue agg (series.map Prod.snd) ≤ p.2) ∧
        (agg = .amax → p.2 ≤ aggValue agg (series.map Prod.snd))) ∧
      (∀ p ∈ series, p.2 = aggValue agg (series.map Prod.snd) → t ≤ p.1) := by
  cases hfil : series.filter
      (fun q => decide (q.2 = aggValue agg (series.map Prod.snd))) with
  | nil =>
    exfalso
    have hv : aggValue agg (series.map Prod.snd) ∈ series.map Prod.snd :=
      aggValue_mem _ _ (by simpa using hne)
    obtain ⟨p, hp, hpv⟩ := List.mem_map.mp hv
    have hpf : p ∈ series.filter
        (fun q => decide (q.2 = aggValue agg (series.map Prod.snd))) :=
      List.mem_filter.mpr ⟨hp, by simp [hpv]⟩
    rw [hfil] at hpf; simp at hpf
  | cons q qs =>
    have hq : q ∈ series ∧ q.2 = aggValue agg (series.map Prod.snd) := by
      have : q ∈ series.filter
          (fun r => decide (r.2 = aggValue agg (series.map Prod.snd))) := by
        rw [hfil]; exact List.mem_cons_self _ _
      have h2 := List.mem_filter.mp this
      exact ⟨h2.1, by simpa using h2.2⟩
    refine ⟨q.1, ?_, ?_, ?_, ?_⟩
    · simp only [findValueWithTime, if_neg hne]
      rw [hfil]
    · rw [← hq.2]; exact hq.1
    · intro p hp
      constructor
      · rintro rfl
        exact aggValue_min_le _ _ (List.mem_map.mpr ⟨p, hp, rfl⟩)
      · rintro rfl
        exact le_aggValue_max _ _ (List.mem_map.mpr ⟨p, hp, rfl⟩)
    · intro p hp hpv
      have hpf : p ∈ series.filter
          (fun r => decide (r.2 = aggValue agg (series.map Prod.snd))) :=
        List.mem_filter.mpr ⟨hp, by simp [hpv]⟩
      rw [hfil] at hpf
      rcases List.mem_cons.mp hpf with h1 | h1
      · rw [h1]
      · have hpair : (q :: qs).Pairwise (fun p q => p.1 < q.1) := by
          rw [← hfil]
          exact List.Pairwise.filter _ hsorted
        exact le_of_lt ((List.pairwise_cons.mp hpair).1 p h1)

/-- Concrete instance of C2, the spec's example: on the ascending series
`[(t1, 5), (t2, 9), (t3, 9), (t4, 2)]` with `t1 < t2 < t3 < t4`, MAX returns
`(9, t2)` — the earliest occurrence of the maximum, not `t3`. -/
theorem findValueWithTime_first_occurrence_witness :
    findValueWithTime [((1 : ℚ), (5 : ℚ)), (2, 9), (3, 9), (4, 2)] .amax
      = (some 9, some 2) := by
  obtain ⟨t, heq, hmem, _, hfirst⟩ :=
    findValueWithTime_first_occurrence [((1 : ℚ), (5 : ℚ)), (2, 9), (3, 9), (4, 2)]
      .amax (by simp) (by norm_num [List.pairwise_cons])
  have hv : aggValue .amax ([((1 : ℚ), (5 : ℚ)), (2, 9), (3, 9), (4, 2)].map Prod.snd)
      = 9 := by
    norm_num [aggValue, max_def]
  rw [hv] at heq hmem hfirst
  have h2 := hfirst (2, 9) (by simp) rfl
  simp only [List.mem_cons, Prod.mk.injEq, List.not_mem_nil, or_false] at hmem
  norm_num at hmem
  have ht : t = 2 := by
    rcases hmem with h | h
    · exact h
    · exfalso; rw [h] at h2; norm_num at h2
  rw [ht] at heq
  exact heq

-- ---------------------------------------------------------------------------
-- C6: wind run
-- ---------------------------------------------------------------------------

/-- Claim C6: `_calculate_wind_run` equals mean(samples) × (interval-minutes / 60)
× count(samples); it receives no timestamps, so only the configured constant
interval enters.  Concretely, speeds `[2, 4, 6]` at a 10-minute interval give
`2`; and for non-empty input the mean × count product collapses to
sum × interval-hours. -/
theorem calculateWindRun_spec :
    calculateWindRun [2, 4, 6] 10 = 2 ∧
      (∀ (l : List ℚ) (i : ℚ),
        calculateWindRun l i = listMean l * (i / 60) * l.length) ∧
      (∀ (l : List ℚ) (i : ℚ), l ≠ [] →
        calculateWindRun l i = l.sum * i / 60) := by
  refine ⟨by norm_num [calculateWindRun, listMean], fun l i => rfl, fun l i hl => ?_⟩
  have hlen : (l.length : ℚ) ≠ 0 := by
    exact_mod_cast Nat.pos_iff_ne_zero.mp (List.length_pos.mpr hl)
  simp only [calculateWindRun, listMean]
  field_simp
  ring

/-- Concrete instance of C6 via the general formula: `[2, 4, 6]` at interval 10
has wind run `sum × 10 / 60 = 2`. -/
theorem calculateWindRun_spec_witness :
    calculateWindRun [2, 4, 6] 10 = [2, 4, 6].sum * 10 / 60 :=
  calculateWindRun_spec.2.2 [2, 4, 6] 10 (by simp)

-- ---------------------------------------------------------------------------
-- C4: cardinal mapper
-- ---------------------------------------------------------------------------

/-- Claim C4: `_get_cardinal_direction` always returns one of the 16 labels, for
every rational degree input, and matches the spec's sample values:
`0 ↦ N`, `359 ↦ N`, `180 ↦ S`, `100 ↦ E`.  The tie-break of the rounding is
Python's round-half-to-even. -/
theorem getCardinalDirection_total :
    (∀ d : ℚ, getCardinalDirection d ∈ directions) ∧
      getCardinalDirection 0 = "N" ∧ getCardinalDirection 359 = "N" ∧
      getCardinalDirection 180 = "S" ∧ getCardinalDirection 100 = "E" := by
  constructor
  · intro d
    have h0 : (0 : ℤ) ≤ roundHalfEven (d / 22.5) % 16 :=
      Int.emod_nonneg _ (by norm_num)
    have h1 : roundHalfEven (d / 22.5) % 16 < 16 :=
      Int.emod_lt_of_pos _ (by norm_num)
    have hlt : (roundHalfEven (d / 22.5) % 16).toNat < directions.length := by
      have : (roundHalfEven (d / 22.5) % 16).toNat < 16 := by omega
      simpa [directions] using this
    rw [getCardinalDirection, List.getD_eq_getElem directions "N" hlt]
    exact List.getElem_mem _
  · refine ⟨?_, ?_, ?_, ?_⟩
    · have hq : ((0 : ℚ) / 22.5) = 0 := by norm_num
      have hf : ⌊(0 : ℚ)⌋ = 0 := Int.floor_zero
      rw [getCardinalDirection, hq, roundHalfEven, hf]
      norm_num [directions]
    · have hq : ((359 : ℚ) / 22.5) = 718 / 45 := by norm_num
      have hf : ⌊(718 / 45 : ℚ)⌋ = 15 := by
        rw [Int.floor_eq_iff]; norm_num
      rw [getCardinalDirection, hq, roundHalfEven, hf]
      norm_num [directions]
    · have hq : ((180 : ℚ) / 22.5) = 8 := by norm_num
      have hf : ⌊(8 : ℚ)⌋ = 8 := by
        rw [Int.floor_eq_iff]; norm_num
      rw [getCardinalDirection, hq, roundHalfEven, hf]
      norm_num [directions]
      decide
    · have hq : ((100 : ℚ) / 22.5) = 40 / 9 := by norm_num
      have hf : ⌊(40 / 9 : ℚ)⌋ = 4 := by
        rw [Int.floor_eq_iff]; norm_num
      rw [getCardinalDirection, hq, roundHalfEven, hf]
      norm_num [directions]
      decide

-- ---------------------------------------------------------------------------
-- Mode of a series (pandas `Series.mode`) and the dominant wind sector
-- ---------------------------------------------------------------------------

theorem le_foldr_max (L : List ℕ) : ∀ x ∈ L, x ≤ L.foldr max 0 := by
  induction L with
  | nil => simp
  | cons a t ih =>
    intro x hx
    rw [List.foldr_cons]
    rcases List.mem_cons.mp hx with h | h
    · rw [h]; exact le_max_left _ _
    · calc x ≤ t.foldr max 0 := ih x h
        _ ≤ max a (t.foldr max 0) := le_max_right _ _

theorem foldr_max_mem (L : List ℕ) : L.foldr max 0 ∈ L ∨ L.foldr max 0 = 0 := by
  induction L with
  | nil => simp
  | cons a t ih =>
    rw [List.foldr_cons]
    rcases le_or_lt (t.foldr max 0) a with h | h
    · left; rw [max_eq_left h]; exact List.mem_cons_self _ _
    · rw [max_eq_right (le_of_lt h)]
      rcases ih with h1 | h1
      · left; exact List.mem_cons.mpr (Or.inr h1)
      · right; exact h1

theorem mem_sortedValues_iff (l : List ℚ) (v : ℚ) : v ∈ sortedValues l ↔ v ∈ l := by
  rw [sortedValues, (List.perm_insertionSort _ _).mem_iff, List.mem_dedup]

theorem sortedValues_sorted (l : List ℚ) :
    (sortedValues l).Pairwise (· ≤ ·) :=
  List.sorted_insertionSort _ _

theorem count_le_maxCountOf (l : List ℚ) (v : ℚ) (hv : v ∈ l) :
    l.count v ≤ maxCountOf l := by
  refine le_foldr_max _ _ (List.mem_map.mpr ⟨v, ?_, rfl⟩)
  exact (mem_sortedValues_iff l v).mpr hv

theorem exists_count_eq_maxCountOf (l : List ℚ) (h : l ≠ []) :
    ∃ v ∈ l, l.count v = maxCountOf l := by
  rcases foldr_max_mem ((sortedValues l).map (fun v => l.count v)) with h1 | h1
  · obtain ⟨v, hv, hc⟩ := List.mem_map.mp h1
    exact ⟨v, (mem_sortedValues_iff l v).mp hv, hc⟩
  · exfalso
    match l, h with
    | x :: xs, _ =>
      have hx : (x :: xs).count x ≤ maxCountOf (x :: xs) :=
        count_le_maxCountOf _ x (List.mem_cons_self _ _)
      have hpos : 0 < (x :: xs).count x :=
        List.count_pos_iff.mpr (List.mem_cons_self _ _)
      rw [maxCountOf] at hx
      omega

theorem mem_modeList_iff (l : List ℚ) (v : ℚ) :
    v ∈ modeList l ↔ v ∈ l ∧ l.count v = maxCountOf l := by
  rw [modeList, List.mem_filter]
  simp [mem_sortedValues_iff]

theorem modeList_ne_nil (l : List ℚ) (h : l ≠ []) : modeList l ≠ [] := by
  obtain ⟨v, hv, hc⟩ := exists_count_eq_maxCountOf l h
  exact List.ne_nil_of_mem ((mem_modeList_iff l v).mpr ⟨hv, hc⟩)

theorem modeList_head_spec (l : List ℚ) (m : ℚ) (rest : List ℚ)
    (h : modeList l = m :: rest) :
    m ∈ l ∧ l.count m = maxCountOf l ∧
      (∀ v ∈ l, l.count v ≤ l.count m) ∧
      (∀ v ∈ l, l.count v = l.count m → m ≤ v) := by
  have hm : m ∈ modeList l := by rw [h]; exact List.mem_cons_self _ _
  obtain ⟨hml, hmc⟩ := (mem_modeList_iff l m).mp hm
  refine ⟨hml, hmc, ?_, ?_⟩
  · intro v hv
    rw [hmc]
    exact count_le_maxCountOf l v hv
  · intro v hv hvc
    have hvm : v ∈ modeList l := (mem_modeList_iff l v).mpr ⟨hv, by rw [hvc, hmc]⟩
    rw [h] at hvm
    rcases List.mem_cons.mp hvm with h1 | h1
    · rw [h1]
    · have hpair : (m :: rest).Pairwise (· ≤ ·) := by
        rw [← h]
        exact List.Pairwise.filter _ (sortedValues_sorted l)
      exact (List.pairwise_cons.mp hpair).1 v h1

-- ---------------------------------------------------------------------------
-- C9: dominant sector is the mode, ties broken towards the lowest sector
-- ---------------------------------------------------------------------------

/-- Claim C9: for every non-empty wind-direction sample list, the dominant
sector computation buckets each sample into the nearest 22.5-degree sector and
emits the cardinal label of the mode of the buckets; the chosen bucket `m` has
maximal occurrence count, and on a tie the lowest sector value is chosen. -/
theorem dominantWindDirection_spec (windDir : List ℚ) (h : windDir ≠ []) :
    ∃ m rest, modeList (dominantSector windDir) = m :: rest ∧
      dominantWindDirection windDir = some (getCardinalDirection m) ∧
      m ∈ dominantSector windDir ∧
      (∀ v ∈ dominantSector windDir,
        (dominantSector windDir).count v ≤ (dominantSector windDir).count m) ∧
      (∀ v ∈ dominantSector windDir,
        (dominantSector windDir).count v = (dominantSector windDir).count m →
          m ≤ v) := by
  have hne : dominantSector windDir ≠ [] := by
    rw [dominantSector]
    simpa using h
  cases hml : modeList (dominantSector windDir) with
  | nil => exact absurd hml (modeList_ne_nil _ hne)
  | cons m rest =>
    obtain ⟨hm, _, hmax, hlow⟩ := modeList_head_spec _ m rest hml
    exact ⟨m, rest, rfl, by rw [dominantWindDirection, hml], hm, hmax, hlow⟩

/-- Concrete instance of C9 at the two-sample tie `[0, 45]`: both sectors occur
once and the lower sector wins. -/
theorem dominantWindDirection_spec_witness :
    ∃ m rest, modeList (dominantSector [0, 45]) = m :: rest ∧
      dominantWindDirection [0, 45] = some (getCardinalDirection m) ∧
      m ∈ dominantSector [0, 45] ∧
      (∀ v ∈ dominantSector [0, 45],
        (dominantSector [0, 45]).count v ≤ (dominantSector [0, 45]).count m) ∧
      (∀ v ∈ dominantSector [0, 45],
        (dominantSector [0, 45]).count v = (dominantSector [0, 45]).count m →
          m ≤ v) :=
  dominantWindDirection_spec [0, 45] (by simp)

-- ---------------------------------------------------------------------------
-- C3: the circular mean lies in [0, 360) and maps [350, 10] to 0
-- ---------------------------------------------------------------------------

theorem avgAngleDeg_bounds (angles : List ℝ) :
    -180 < avgAngleDeg angles ∧ avgAngleDeg angles ≤ 180 := by
  have hpi : (0 : ℝ) < Real.pi := Real.pi_pos
  have harg1 : Complex.arg ⟨meanCos angles, meanSin angles⟩ ≤ Real.pi :=
    Complex.arg_le_pi _
  have harg2 : -Real.pi < Complex.arg ⟨meanCos angles, meanSin angles⟩ :=
    Complex.neg_pi_lt_arg _
  rw [avgAngleDeg, arctan2]
  constructor
  · rw [lt_div_iff₀ hpi]
    nlinarith
  · rw [div_le_iff₀ hpi]
    nlinarith

/-- Claim C3: for every non-empty list of angle samples, the circular mean
computed by the wind-direction branch lies in `[0, 360)`; and the circular mean
of `[350, 10]` is exactly `0`, not `180`. -/
theorem circularMean_spec :
    (∀ angles : List ℝ, angles ≠ [] → circularMean angles ∈ Set.Ico (0 : ℝ) 360) ∧
      circularMean [350, 10] = 0 := by
  constructor
  · intro angles _
    obtain ⟨hlo, hhi⟩ := avgAngleDeg_bounds angles
    rw [circularMean]
    rcases lt_or_le (avgAngleDeg angles) 0 with h | h
    · rw [if_pos h]
      constructor
      · linarith
      · linarith
    · rw [if_neg (not_lt.mpr h)]
      constructor
      · exact h
      · linarith
  · have hpi : (0 : ℝ) < Real.pi := Real.pi_pos
    have hsin : meanSin [350, 10] = 0 := by
      have h350 : (350 : ℝ) * Real.pi / 180 = 2 * Real.pi - 10 * Real.pi / 180 := by
        ring
      have h10 : Real.sin ((350 : ℝ) * Real.pi / 180)
          = -Real.sin ((10 : ℝ) * Real.pi / 180) := by
        rw [h350, Real.sin_sub, Real.sin_two_pi, Real.cos_two_pi]
        ring
      simp [meanSin, h10]
    have hcos : meanCos [350, 10] = Real.cos ((10 : ℝ) * Real.pi / 180) := by
      have h350 : (350 : ℝ) * Real.pi / 180 = 2 * Real.pi - 10 * Real.pi / 180 := by
        ring
      have h10 : Real.cos ((350 : ℝ) * Real.pi / 180)
          = Real.cos ((10 : ℝ) * Real.pi / 180) := by
        rw [h350, Real.cos_sub, Real.sin_two_pi, Real.cos_two_pi]
        ring
      rw [meanCos]
      rw [List.map_cons, List.map_cons, List.map_nil, List.sum_cons, List.sum_cons,
        List.sum_nil, h10]
      norm_num
    have hcospos : 0 ≤ Real.cos ((10 : ℝ) * Real.pi / 180) := by
      apply Real.cos_nonneg_of_mem_Icc
      constructor
      · nlinarith
      · nlinarith
    have harg : arctan2 (meanSin [350, 10]) (meanCos [350, 10]) = 0 := by
      rw [hsin, hcos, arctan2]
      have hco : (⟨Real.cos ((10 : ℝ) * Real.pi / 180), 0⟩ : ℂ)
          = ((Real.cos ((10 : ℝ) * Real.pi / 180) : ℝ) : ℂ) := by
        rfl
      rw [hco]
      exact Complex.arg_ofReal_of_nonneg hcospos
    have havg : avgAngleDeg [350, 10] = 0 := by
      rw [avgAngleDeg, harg, zero_mul, zero_div]
    rw [circularMean, havg]
    norm_num

/-- Concrete instance of C3: the circular mean of `[350, 10]` lies in `[0, 360)`. -/
theorem circularMean_spec_witness :
    circularMean [350, 10] ∈ Set.Ico (0 : ℝ) 360 :=
  circularMean_spec.1 [350, 10] (by simp)



-- ---------------------------------------------------------------------------
-- Association-list lookup helpers
-- ---------------------------------------------------------------------------

theorem lookup_isSome_iff_mem {β : Type} (k : String) (l : List (String × β)) :
    (List.lookup k l).isSome = true ↔ ∃ v, (k, v) ∈ l := by
  induction l with
  | nil => simp [List.lookup]
  | cons e t ih =>
    obtain ⟨a, b⟩ := e
    by_cases h : k = a
    · subst h
      constructor
      · intro _
        exact ⟨b, List.mem_cons_self _ _⟩
      · intro _
        simp [List.lookup]
    · simp only [List.lookup, beq_false_of_ne h]
      rw [ih]
      constructor
      · rintro ⟨v, hv⟩
        exact ⟨v, List.mem_cons.mpr (Or.inr hv)⟩
      · rintro ⟨v, hv⟩
        rcases List.mem_cons.mp hv with h1 | h1
        · exact absurd (congrArg Prod.fst h1) h
        · exact ⟨v, h1⟩

theorem lookup_append {β : Type} (k : String) (A B : List (String × β)) :
    List.lookup k (A ++ B) = (List.lookup k A).or (List.lookup k B) := by
  induction A with
  | nil => simp [List.lookup]
  | cons e t ih =>
    obtain ⟨a, b⟩ := e
    by_cases h : k = a
    · subst h
      simp [List.lookup]
    · simp only [List.cons_append, List.lookup, beq_false_of_ne h]
      exact ih

theorem lookup_eq_none_of_not_mem {β : Type} (k : String) (l : List (String × β))
    (h : ¬ ∃ v, (k, v) ∈ l) : List.lookup k l = none := by
  rcases hl : List.lookup k l with _ | v
  · rfl
  · exfalso
    apply h
    have : (List.lookup k l).isSome = true := by rw [hl]; rfl
    exact (lookup_isSome_iff_mem k l).mp this

theorem exists_mem_nil_iff {β : Type} (k : String) :
    (∃ v, (k, v) ∈ ([] : List (String × β))) ↔ False := by simp

theorem exists_mem_cons_iff {β : Type} (k : String) (e : String × β)
    (t : List (String × β)) :
    (∃ v, (k, v) ∈ e :: t) ↔ (k = e.1 ∨ ∃ v, (k, v) ∈ t) := by
  constructor
  · rintro ⟨v, hv⟩
    rcases List.mem_cons.mp hv with h | h
    · exact Or.inl (congrArg Prod.fst h)
    · exact Or.inr ⟨v, h⟩
  · rintro (h | ⟨v, hv⟩)
    · exact ⟨e.2, by rw [h]; exact List.mem_cons_self _ _⟩
    · exact ⟨v, List.mem_cons.mpr (Or.inr hv)⟩

theorem exists_mem_append_iff {β : Type} (k : String) (A B : List (String × β)) :
    (∃ v, (k, v) ∈ A ++ B) ↔ (∃ v, (k, v) ∈ A) ∨ (∃ v, (k, v) ∈ B) := by
  constructor
  · rintro ⟨v, hv⟩
    rcases List.mem_append.mp hv with h | h
    · exact Or.inl ⟨v, h⟩
    · exact Or.inr ⟨v, h⟩
  · rintro (⟨v, hv⟩ | ⟨v, hv⟩)
    · exact ⟨v, List.mem_append.mpr (Or.inl hv)⟩
    · exact ⟨v, List.mem_append.mpr (Or.inr hv)⟩

theorem exists_mem_statBlock_iff (df : DataFrame) (col k1 k2 k3 k4 k5 k : String) :
    (∃ v, (k, v) ∈ statBlock df col k1 k2 k3 k4 k5) ↔
      ((k = k1 ∨ k = k2 ∨ k = k3 ∨ k = k4 ∨ k = k5) ∧
        (df.hasCol col = true ∧ df.series col ≠ [])) := by
  rw [statBlock]
  split
  case isTrue h =>
    simp only [exists_mem_cons_iff, exists_mem_nil_iff, or_false, entryNum, entryTime]
    constructor
    · intro hk; exact ⟨hk, h⟩
    · intro hk; exact hk.1
  case isFalse h =>
    constructor
    · rintro ⟨v, hv⟩; exact absurd hv (List.not_mem_nil _)
    · rintro ⟨-, hc⟩; exact absurd hc h

theorem exists_mem_windBlock_iff (f : List ℚ → ℚ) (w : ℚ) (df : DataFrame)
    (k : String) :
    (∃ v, (k, v) ∈ windBlock f w df) ↔
      ((k = "low_wind_speed" ∨ k = "time_of_low_wind_speed" ∨
          k = "high_avg_wind_speed" ∨ k = "time_of_high_avg_wind_speed" ∨
          k = "average_wind_speed" ∨ k = "wind_speed_stdev" ∨ k = "wind_run_total") ∧
        (df.hasCol "current_wind_speed" = true ∧
          df.series "current_wind_speed" ≠ [])) := by
  rw [windBlock]
  split
  case isTrue h =>
    simp only [exists_mem_cons_iff, exists_mem_nil_iff, or_false, entryNum, entryTime]
    constructor
    · intro hk; exact ⟨hk, h⟩
    · intro hk; exact hk.1
  case isFalse h =>
    constructor
    · rintro ⟨v, hv⟩; exact absurd hv (List.not_mem_nil _)
    · rintro ⟨-, hc⟩; exact absurd hc h

theorem exists_mem_gustDirEntry_iff (df : DataFrame) (gt? : Option ℚ) (k : String) :
    (∃ v, (k, v) ∈ gustDirEntry df gt?) ↔
      (k = "max_gust_direction" ∧ ∃ gt d, gt? = some gt ∧
        df.hasCol "max_wind_direction" = true ∧
        df.atTime gt "max_wind_direction" = some d) := by
  cases gt? with
  | none => simp [gustDirEntry]
  | some gt =>
    rw [gustDirEntry]
    by_cases hc : df.hasCol "max_wind_direction" = true
    · rw [if_pos hc]
      cases hat : df.atTime gt "max_wind_direction" with
      | none =>
        constructor
        · rintro ⟨v, hv⟩; exact absurd hv (List.not_mem_nil _)
        · rintro ⟨-, gt2, d, hgt, -, had⟩
          injection hgt with h1
          rw [← h1] at had
          rw [hat] at had
          exact Option.noConfusion had
      | some d =>
        constructor
        · rintro ⟨v, hv⟩
          simp only [List.mem_cons, List.not_mem_nil, or_false] at hv
          exact ⟨congrArg Prod.fst hv, gt, d, rfl, hc, hat⟩
        · rintro ⟨rfl, -⟩
          exact ⟨MetricValue.num d, List.mem_cons_self _ _⟩
    · rw [if_neg hc]
      constructor
      · rintro ⟨v, hv⟩; exact absurd hv (List.not_mem_nil _)
      · rintro ⟨-, gt2, d, -, hcol, -⟩
        exact absurd hcol hc

theorem exists_mem_gustBlock_iff (df : DataFrame) (k : String) :
    (∃ v, (k, v) ∈ gustBlock df) ↔
      ((df.hasCol "gust_speed" = true ∧ df.series "gust_speed" ≠ []) ∧
        ((k = "max_gust_speed" ∨ k = "time_of_max_gust") ∨
          (k = "max_gust_direction" ∧
            ∃ gt d, (findValueWithTime (df.series "gust_speed") .amax).2 = some gt ∧
              df.hasCol "max_wind_direction" = true ∧
              df.atTime gt "max_wind_direction" = some d))) := by
  rw [gustBlock]
  split
  case isTrue h =>
    rw [exists_mem_append_iff]
    simp only [exists_mem_cons_iff, exists_mem_nil_iff, or_false, entryNum, entryTime,
      exists_mem_gustDirEntry_iff]
    constructor
    · intro hk; exact ⟨h, hk⟩
    · intro hk; exact hk.2
  case isFalse h =>
    constructor
    · rintro ⟨v, hv⟩; exact absurd hv (List.not_mem_nil _)
    · rintro ⟨hc, -⟩; exact absurd hc h

theorem exists_mem_windDirBlock_iff (g : List ℚ → ℚ) (df : DataFrame) (k : String) :
    (∃ v, (k, v) ∈ windDirBlock g df) ↔
      ((df.hasCol "current_wind_direction" = true ∧
          df.series "current_wind_direction" ≠ []) ∧
        (k = "average_wind_direction" ∨
          (k = "dominant_wind_direction" ∧
            ∃ lbl, dominantWindDirection
              ((df.series "current_wind_direction").map Prod.snd) = some lbl))) := by
  rw [windDirBlock]
  split
  case isTrue h =>
    cases hd : dominantWindDirection
        ((df.series "current_wind_direction").map Prod.snd) with
    | none =>
      simp only [exists_mem_cons_iff, exists_mem_nil_iff, or_false]
      constructor
      · intro hk; exact ⟨h, Or.inl hk⟩
      · rintro ⟨-, hk⟩
        rcases hk with hk | ⟨-, lbl, hlbl⟩
        · exact hk
        · exact Option.noConfusion hlbl
    | some lbl =>
      simp only [exists_mem_cons_iff, exists_mem_nil_iff, or_false]
      constructor
      · intro hk
        rcases hk with hk | hk
        · exact ⟨h, Or.inl hk⟩
        · exact ⟨h, Or.inr ⟨hk, lbl, rfl⟩⟩
      · rintro ⟨-, hk⟩
        rcases hk with hk | ⟨hk, -⟩
        · exact Or.inl hk
        · exact Or.inr hk
  case isFalse h =>
    constructor
    · rintro ⟨v, hv⟩; exact absurd hv (List.not_mem_nil _)
    · rintro ⟨hc, -⟩; exact absurd hc h

theorem exists_mem_rainRateBlock_iff (df : DataFrame) (k : String) :
    (∃ v, (k, v) ∈ rainRateBlock df) ↔
      ((k = "max_rain_rate" ∨ k = "time_of_max_rain_rate") ∧
        (df.hasCol "current_rain_rate" = true ∧
          df.series "current_rain_rate" ≠ [])) := by
  rw [rainRateBlock]
  split
  case isTrue h =>
    simp only [exists_mem_cons_iff, exists_mem_nil_iff, or_false, entryNum, entryTime]
    constructor
    · intro hk; exact ⟨hk, h⟩
    · intro hk; exact hk.1
  case isFalse h =>
    constructor
    · rintro ⟨v, hv⟩; exact absurd hv (List.not_mem_nil _)
    · rintro ⟨-, hc⟩; exact absurd hc h

theorem exists_mem_totalRainBlock_iff (df : DataFrame) (k : String) :
    (∃ v, (k, v) ∈ totalRainBlock df) ↔
      (k = "total_rainfall" ∧ (df.hasCol "total_rain" = true ∧
        df.series "total_rain" ≠ [])) := by
  rw [totalRainBlock]
  by_cases hc : df.hasCol "total_rain" = true
  · rw [if_pos hc]
    cases hs : df.series "total_rain" with
    | nil =>
      constructor
      · rintro ⟨v, hv⟩; exact absurd hv (List.not_mem_nil _)
      · rintro ⟨-, -, hne⟩; exact absurd rfl hne
    | cons p rest =>
      simp only [exists_mem_cons_iff, exists_mem_nil_iff, or_false]
      constructor
      · intro hk
        exact ⟨hk, hc, List.cons_ne_nil _ _⟩
      · intro hk; exact hk.1
  · rw [if_neg hc]
    constructor
    · rintro ⟨v, hv⟩; exact absurd hv (List.not_mem_nil _)
    · rintro ⟨-, hcc, -⟩; exact absurd hcc hc

theorem exists_mem_station_iff (st k : String) :
    (∃ v, (k, v) ∈ ([("station", MetricValue.str st)] : Metrics)) ↔
      k = "station" := by
  simp only [exists_mem_cons_iff, exists_mem_nil_iff, or_false]

theorem hasCol_of_series_ne_nil (df : DataFrame) (c : String)
    (h : df.series c ≠ []) : df.hasCol c = true := by
  by_contra hc
  apply h
  have hg : df.getCol c = [] := by
    rw [DataFrame.getCol]
    cases hf : df.cols.find? (fun x => x.1 == c) with
    | none => rfl
    | some p =>
      exfalso
      apply hc
      rw [DataFrame.hasCol]
      have hp := List.find?_some hf
      exact List.any_eq_true.mpr ⟨p, List.mem_of_find?_eq_some hf, hp⟩
  rw [DataFrame.series, hg, List.zip_nil_right]
  rfl

theorem dominantWindDirection_isSome (vals : List ℚ) (h : vals ≠ []) :
    ∃ lbl, dominantWindDirection vals = some lbl := by
  rw [dominantWindDirection]
  cases hml : modeList (dominantSector vals) with
  | nil =>
    exact absurd hml (modeList_ne_nil _ (by rw [dominantSector]; simpa using h))
  | cons m rest => exact ⟨getCardinalDirection m, rfl⟩

theorem exists_mem_windDirBlock_keys_iff (g : List ℚ → ℚ) (df : DataFrame)
    (k : String) :
    (∃ v, (k, v) ∈ windDirBlock g df) ↔
      ((k = "average_wind_direction" ∨ k = "dominant_wind_direction") ∧
        (df.hasCol "current_wind_direction" = true ∧
          df.series "current_wind_direction" ≠ [])) := by
  rw [exists_mem_windDirBlock_iff]
  constructor
  · rintro ⟨hc, hk⟩
    rcases hk with hk | ⟨hk, -⟩
    · exact ⟨Or.inl hk, hc⟩
    · exact ⟨Or.inr hk, hc⟩
  · rintro ⟨hk, hc⟩
    refine ⟨hc, ?_⟩
    rcases hk with hk | hk
    · exact Or.inl hk
    · refine Or.inr ⟨hk, ?_⟩
      apply dominantWindDirection_isSome
      simpa using hc.2

theorem lookup_maxGustDirection_isSome (f g : List ℚ → ℚ) (w : ℚ)
    (df : DataFrame) (st : String) :
    (List.lookup "max_gust_direction"
        (computeRollupMetrics f g w df st)).isSome = true ↔
      ((df.hasCol "gust_speed" = true ∧ df.series "gust_speed" ≠ []) ∧
        ∃ gt d, (findValueWithTime (df.series "gust_speed") .amax).2 = some gt ∧
          df.hasCol "max_wind_direction" = true ∧
          df.atTime gt "max_wind_direction" = some d) := by
  simp only [computeRollupMetrics, lookup_isSome_iff_mem, exists_mem_append_iff,
    exists_mem_station_iff, exists_mem_statBlock_iff, exists_mem_windBlock_iff,
    exists_mem_gustBlock_iff, exists_mem_windDirBlock_keys_iff,
    exists_mem_rainRateBlock_iff, exists_mem_totalRainBlock_iff]
  simp +decide

/-- Claim C1 (amended): for every window and station, each derived metric key of
the fixed table appears in the computed record if and only if its source column
exists in the window and has at least one non-missing sample after dropping
missing entries — with the one exception of `max_gust_direction`, which is
additionally emitted only when the `max_wind_direction` cell at the max-gust
timestamp is itself non-missing.  Presence of a key never requires anything
else, so a window lacking `current_sea_level_pressure` yields no
pressure-prefixed keys and the computation is total. -/
theorem rollup_key_presence (f g : List ℚ → ℚ) (w : ℚ) (df : DataFrame)
    (st : String) :
    (∀ p ∈ metricTable,
      ((List.lookup p.1 (computeRollupMetrics f g w df st)).isSome = true ↔
        (df.hasCol p.2 = true ∧ df.series p.2 ≠ []))) ∧
    ((List.lookup "max_gust_direction"
        (computeRollupMetrics f g w df st)).isSome = true ↔
      ((df.hasCol "gust_speed" = true ∧ df.series "gust_speed" ≠ []) ∧
        ∃ gt d, (findValueWithTime (df.series "gust_speed") .amax).2 = some gt ∧
          df.hasCol "max_wind_direction" = true ∧
          df.atTime gt "max_wind_direction" = some d)) := by
  constructor
  · intro p hp
    fin_cases hp <;>
      (simp only [computeRollupMetrics, lookup_isSome_iff_mem, exists_mem_append_iff,
        exists_mem_station_iff, exists_mem_statBlock_iff, exists_mem_windBlock_iff,
        exists_mem_gustBlock_iff, exists_mem_windDirBlock_keys_iff,
        exists_mem_rainRateBlock_iff, exists_mem_totalRainBlock_iff];
       simp +decide)
  · exact lookup_maxGustDirection_isSome f g w df st

theorem dfC1_gust_series : dfC1.series "gust_speed" = [(0, 5), (1, 3)] := by
  simp +decide [dfC1, DataFrame.series, DataFrame.getCol, List.find?,
    List.filterMap_cons]

theorem dfC1_dir_series : dfC1.series "max_wind_direction" = [(1, 270)] := by
  simp +decide [dfC1, DataFrame.series, DataFrame.getCol, List.find?,
    List.filterMap_cons]

theorem dfC1_gust_snd :
    (findValueWithTime [((0 : ℚ), (5 : ℚ)), (1, 3)] .amax).2 = some 0 := by
  have hmax : aggValue .amax [(5 : ℚ), 3] = 5 := by
    norm_num [aggValue, max_def]
  rw [findValueWithTime, if_neg (by simp)]
  simp only [List.map_cons, List.map_nil, hmax]
  norm_num [List.filter]

theorem dfC1_atTime_zero : dfC1.atTime 0 "max_wind_direction" = none := by
  norm_num [dfC1, DataFrame.atTime, DataFrame.getCol, List.find?]

/-- Counterexample to claim C1 as stated: in `dfC1`, the source column
`max_wind_direction` exists and has a non-missing sample, yet the derived key
`max_gust_direction` is absent from the computed record (the cell at the
max-gust timestamp is missing). -/
theorem rollup_key_presence_counterexample :
    dfC1.hasCol "max_wind_direction" = true ∧
    dfC1.series "max_wind_direction" ≠ [] ∧
    List.lookup "max_gust_direction"
      (computeRollupMetrics (fun _ => 0) (fun _ => 0) 600 dfC1 "st") = none := by
  refine ⟨by decide, ?_, ?_⟩
  · rw [dfC1_dir_series]
    exact List.cons_ne_nil _ _
  · have hiso := lookup_maxGustDirection_isSome (fun _ => 0) (fun _ => 0) 600 dfC1 "st"
    have hnot : ¬ ((dfC1.hasCol "gust_speed" = true ∧ dfC1.series "gust_speed" ≠ []) ∧
        ∃ gt d, (findValueWithTime (dfC1.series "gust_speed") .amax).2 = some gt ∧
          dfC1.hasCol "max_wind_direction" = true ∧
          dfC1.atTime gt "max_wind_direction" = some d) := by
      rintro ⟨-, gt, d, hgt, -, hat⟩
      rw [dfC1_gust_series, dfC1_gust_snd] at hgt
      injection hgt with hgt1
      rw [← hgt1] at hat
      rw [dfC1_atTime_zero] at hat
      exact Option.noConfusion hat
    cases hl : List.lookup "max_gust_direction"
        (computeRollupMetrics (fun _ => 0) (fun _ => 0) 600 dfC1 "st") with
    | none => rfl
    | some v =>
      exfalso
      apply hnot
      rw [← hiso, hl]
      rfl

/-- Instance of amended claim C1 at a concrete window: `dfRain` lacks
`current_sea_level_pressure`, the presence equivalence specializes to it, and
no pressure-prefixed key is present. -/
theorem rollup_key_presence_witness :
    (((List.lookup "low_pressure"
        (computeRollupMetrics (fun _ => 0) (fun _ => 0) 600 dfRain "st")).isSome
          = true) ↔
      (dfRain.hasCol "current_sea_level_pressure" = true ∧
        dfRain.series "current_sea_level_pressure" ≠ [])) ∧
    List.lookup "low_pressure"
      (computeRollupMetrics (fun _ => 0) (fun _ => 0) 600 dfRain "st") = none := by
  have hiff := (rollup_key_presence (fun _ => 0) (fun _ => 0) 600 dfRain "st").1
    ("low_pressure", "current_sea_level_pressure") (by decide)
  refine ⟨hiff, ?_⟩
  have hnot : ¬ (List.lookup "low_pressure"
      (computeRollupMetrics (fun _ => 0) (fun _ => 0) 600 dfRain "st")).isSome
        = true := by
    rw [hiff]
    rintro ⟨hcol, -⟩
    exact absurd hcol (by decide)
  cases hl : List.lookup "low_pressure"
      (computeRollupMetrics (fun _ => 0) (fun _ => 0) 600 dfRain "st") with
  | none => rfl
  | some v =>
    exfalso
    apply hnot
    rw [hl]
    rfl

theorem lookup_prefix_totalRain_none (f g : List ℚ → ℚ) (w : ℚ) (df : DataFrame)
    (st : String) :
    List.lookup "total_rainfall"
      ([("station", MetricValue.str st)]
        ++ statBlock df "current_outside_temp" "low_temperature"
            "time_of_low_temperature" "high_temperature" "time_of_high_temperature"
            "average_temperature"
        ++ statBlock df "current_dew_point" "low_dew_point" "time_of_low_dew_point"
            "high_dew_point" "time_of_high_dew_point" "average_dew_point"
        ++ statBlock df "current_outside_humidity" "low_humidity"
            "time_of_low_humidity" "high_humidity" "time_of_high_humidity"
            "average_humidity"
        ++ windBlock f w df
        ++ gustBlock df
        ++ windDirBlock g df
        ++ statBlock df "current_sea_level_pressure" "low_pressure"
            "time_of_low_pressure" "high_pressure" "time_of_high_pressure"
            "average_pressure"
        ++ rainRateBlock df) = none := by
  apply lookup_eq_none_of_not_mem
  simp only [exists_mem_append_iff, exists_mem_station_iff, exists_mem_statBlock_iff,
    exists_mem_windBlock_iff, exists_mem_gustBlock_iff,
    exists_mem_windDirBlock_keys_iff, exists_mem_rainRateBlock_iff]
  simp +decide

theorem lookup_totalRainBlock_eq (df : DataFrame) (h : df.series "total_rain" ≠ [])
    (hc : df.hasCol "total_rain" = true) :
    List.lookup "total_rainfall" (totalRainBlock df)
      = some (MetricValue.num
          (((df.series "total_rain").map Prod.snd).getLastD 0
            - ((df.series "total_rain").map Prod.snd).headD 0)) := by
  rw [totalRainBlock, if_pos hc]
  cases hs : df.series "total_rain" with
  | nil => exact absurd hs h
  | cons p rest =>
    simp [List.lookup]

/-- Claim C5: whenever the `total_rain` column has at least one non-missing
sample, the emitted `total_rainfall` equals the last non-missing sample minus
the first non-missing sample in time order (`rain.iloc[-1] - rain.iloc[0]`);
no counter-reset correction exists, a decrease simply produces a negative
delta. -/
theorem totalRainfall_delta (f g : List ℚ → ℚ) (w : ℚ) (df : DataFrame)
    (st : String) (h : df.series "total_rain" ≠ []) :
    List.lookup "total_rainfall" (computeRollupMetrics f g w df st)
      = some (MetricValue.num
          (((df.series "total_rain").map Prod.snd).getLastD 0
            - ((df.series "total_rain").map Prod.snd).headD 0)) := by
  have hc : df.hasCol "total_rain" = true := hasCol_of_series_ne_nil df _ h
  rw [computeRollupMetrics, lookup_append, lookup_prefix_totalRain_none,
    Option.none_or]
  exact lookup_totalRainBlock_eq df h hc

/-- Concrete instance of C5, the spec's example: cumulative rain samples
`[0.0, 1.2, 1.2, 3.5]` yield `total_rainfall = 3.5`. -/
theorem totalRainfall_delta_witness :
    List.lookup "total_rainfall"
      (computeRollupMetrics (fun _ => 0) (fun _ => 0) 600 dfRain "st")
      = some (MetricValue.num 3.5) := by
  have hser : dfRain.series "total_rain"
      = [(0, 0), (1, 1.2), (2, 1.2), (3, 3.5)] := by
    simp +decide [dfRain, DataFrame.series, DataFrame.getCol, List.find?,
      List.filterMap_cons]
  have h := totalRainfall_delta (fun _ => 0) (fun _ => 0) 600 dfRain "st"
    (by rw [hser]; exact List.cons_ne_nil _ _)
  rw [h, hser]
  norm_num [List.getLastD]

-- ---------------------------------------------------------------------------
-- C7: a no-data / failed read aborts the rollup without writing
-- ---------------------------------------------------------------------------

/-- Claim C7: whenever the Raw Data Reader signals no data or a query failure
(it returns `None` in both cases), `compute_hourly_rollup` and
`compute_daily_rollup` return failure and never invoke the Rollup Writer: the
outcome is `aborted`, the reported boolean is `False`, and no `wrote` outcome
is possible. -/
theorem rollup_aborts_on_no_data (f g : List ℚ → ℚ) (w : ℚ) (st : String)
    (writeOk : Metrics → Bool) (q : Option DataFrame) (h : q = none) :
    computeHourlyRollup q f g w st writeOk = .aborted ∧
    rollupSuccess (computeHourlyRollup q f g w st writeOk) = false ∧
    (∀ m ok, computeHourlyRollup q f g w st writeOk ≠ .wrote m ok) ∧
    computeDailyRollup q f g w st writeOk = .aborted ∧
    rollupSuccess (computeDailyRollup q f g w st writeOk) = false ∧
    (∀ m ok, computeDailyRollup q f g w st writeOk ≠ .wrote m ok) := by
  subst h
  refine ⟨rfl, rfl, ?_, rfl, rfl, ?_⟩ <;> intro m ok hw <;>
    exact RollupOutcome.noConfusion hw

/-- Concrete instance of C7 at the Reader's `None` result. -/
theorem rollup_aborts_on_no_data_witness :
    computeHourlyRollup none (fun _ => 0) (fun _ => 0) 600 "st" (fun _ => true)
        = .aborted ∧
    rollupSuccess (computeHourlyRollup none (fun _ => 0) (fun _ => 0) 600 "st"
        (fun _ => true)) = false ∧
    (∀ m ok, computeHourlyRollup none (fun _ => 0) (fun _ => 0) 600 "st"
        (fun _ => true) ≠ .wrote m ok) ∧
    computeDailyRollup none (fun _ => 0) (fun _ => 0) 600 "st" (fun _ => true)
        = .aborted ∧
    rollupSuccess (computeDailyRollup none (fun _ => 0) (fun _ => 0) 600 "st"
        (fun _ => true)) = false ∧
    (∀ m ok, computeDailyRollup none (fun _ => 0) (fun _ => 0) 600 "st"
        (fun _ => true) ≠ .wrote m ok) :=
  rollup_aborts_on_no_data (fun _ => 0) (fun _ => 0) 600 "st" (fun _ => true)
    none rfl

-- ---------------------------------------------------------------------------
-- C8: failure and zero-rows are indistinguishable from the Reader's result
-- ---------------------------------------------------------------------------

/-- Counterexample to claim C8 as stated: a failing run and an empty-result run
return the very same value (`None`) to the caller, so the caller cannot
distinguish the two outcomes from the Reader's result. -/
theorem queryRawData_result_counterexample :
    (queryRawData .failure).1 = (queryRawData (.success ⟨[], []⟩)).1 ∧
    (queryRawData .failure).1 = none := by
  constructor
  · rfl
  · rfl

/-- Claim C8 (amended): `_query_raw_data` reports a connectivity/query failure
distinctly from a zero-row result only in its diagnostic log line (error level
versus the no-data warning); the value returned to the caller is `None` in
both cases, so the two outcomes are not distinguishable from the result
alone. -/
theorem queryRawData_log_distinction (df : DataFrame) (h : df.times = []) :
    (queryRawData .failure).1 = none ∧
    (queryRawData (.success df)).1 = none ∧
    (queryRawData (.success df)).1 = (queryRawData .failure).1 ∧
    (queryRawData (.success df)).2 ≠ (queryRawData .failure).2 := by
  have hemp : df.times.isEmpty = true := by rw [h]; rfl
  refine ⟨rfl, ?_, ?_, ?_⟩
  · simp [queryRawData, hemp]
  · simp [queryRawData, hemp]
  · simp +decide [queryRawData, hemp]

/-- Concrete instance of amended C8 at an empty frame. -/
theorem queryRawData_log_distinction_witness :
    (queryRawData .failure).1 = none ∧
    (queryRawData (.success ⟨[], []⟩)).1 = none ∧
    (queryRawData (.success ⟨[], []⟩)).1 = (queryRawData .failure).1 ∧
    (queryRawData (.success ⟨[], []⟩)).2 ≠ (queryRawData .failure).2 :=
  queryRawData_log_distinction ⟨[], []⟩ rfl
